import Mathlib

/-!
Verification model of the CoreAudio device adapter in
src/build/macosx/platform_specific_code/juce_mac_CoreAudio.cpp.

Sample values are only ever copied, never computed with, so samples are
modelled as integers.  The OS HAL is external to the repository; its
responses (property reads, stream buffers, whether a device id can be
opened) enter the model as explicit oracle parameters, in the mock-OS
style the design document itself uses for its testable properties.
Pointers into the temp audio buffer are modelled as optional per-channel
views: a slot holding `none` corresponds to a null pointer left by the
`zeromem` in `setTempBufferSize`, and an operation that would write
through such a pointer returns `none` (the callback crashes).
-/

namespace CoreAudio

/-- `CallbackDetailsForChannel` (juce_mac_CoreAudio.cpp:748-754): locates one
logical channel inside the OS buffer-list layout. -/
structure CallbackDetailsForChannel where
  sourceChannelNum : Nat
  streamNum : Nat
  dataOffsetSamples : Nat
  dataStrideSamples : Nat
deriving DecidableEq

/-- An OS buffer list: stream number and sample position to sample value. -/
abbrev Buffers : Type := Nat → Nat → Int

/-- The per-channel views over the temp audio buffer.  `none` is a null
pointer (slots beyond the channel count, zeroed by `zeromem`). -/
abbrev TempBufs : Type := Nat → Option (Nat → Int)

/-- Write one sample of one stream of an OS buffer list. -/
def updateBuf (b : Buffers) (stream pos : Nat) (v : Int) : Buffers :=
  fun s n => if s = stream ∧ n = pos then v else b s n

/-- `setTempBufferSize` (lines 137-153): the per-channel views over the
freshly calloc-ed audio buffer.  `juce_calloc` zero-fills, so every valid
view starts out all zero; slots at or beyond the channel counts keep the
null pointers written by `zeromem`.  The byte layout of the single
allocation is modelled separately by `tempAllocBytes`, `tempInputOffset`
and `tempOutputOffset` below. -/
def setTempBufferSize (numInputChans numOutputChans : Nat) : TempBufs × TempBufs :=
  (fun i => if i < numInputChans then some (fun _ => 0) else none,
   fun i => if i < numOutputChans then some (fun _ => 0) else none)

/-- `sizeof (float)` on the target platform. -/
def sizeofFloat : Nat := 4

/-- Line 141: `audioBuffer = juce_calloc (32 + numChannels * numSamples * sizeof (float))`.
The size is in bytes: 32 bytes of slack plus the channel data. -/
def tempAllocBytes (numChannels numSamples : Nat) : Nat :=
  32 + numChannels * numSamples * sizeofFloat

/-- Lines 146-149: input channel `i` is view number `i` (`count` starts at 0
and the input loop runs first), so it starts `i * numSamples` floats from the
start of the allocation. -/
def tempInputOffset (i numSamples : Nat) : Nat := i * numSamples

/-- Lines 151-152: output channel `j` is view number `numInputChans + j`. -/
def tempOutputOffset (numInputChans j numSamples : Nat) : Nat :=
  (numInputChans + j) * numSamples

/-- Two float ranges of length `m` starting at `a` and `b` do not overlap. -/
def viewsDisjoint (a b m : Nat) : Prop := a + m ≤ b ∨ b + m ≤ a

/-- Events delivered to the bound client (`AudioIODeviceCallback`). -/
inductive ClientEvent
  | ioCallback
  | stopped
deriving DecidableEq

/-- The per-device state of `CoreAudioInternal` that the modelled operations
touch.  The `callback` member holds an opaque client identity; the slave
pointer (`inputDevice`) is represented by the `hasInputDevice` flag plus the
explicit pair type `DevicePair` below, since the claims never need a slave of
a slave.  Channel-name arrays and the two active-channel bit arrays are not
read by any modelled operation and are omitted. -/
structure CoreAudioState where
  deviceID : Nat
  started : Bool
  callbacksAllowed : Bool
  isSlaveDevice : Bool
  hasInputDevice : Bool
  callback : Option Nat
  sampleRate : Nat
  bufferSize : Nat
  numInputChans : Nat
  numOutputChans : Nat
  numInputChannelInfos : Nat
  numOutputChannelInfos : Nat
  inputChannelInfo : Nat → CallbackDetailsForChannel
  outputChannelInfo : Nat → CallbackDetailsForChannel
  tempInputBuffers : TempBufs
  tempOutputBuffers : TempBufs
  sampleRates : List Nat
  bufferSizes : List Int

/-- A master plus its optional slave (`inputDevice`). -/
structure DevicePair where
  master : CoreAudioState
  slave : Option CoreAudioState

/-- The input half of `audioCallback` (lines 578-594): for `i` from
`numInputChans - 1` down to 0, copy `bufferSize` samples from stream
`info.streamNum` at `dataOffsetSamples + k * stride` into the view
`tempInputBuffers [info.sourceChannelNum]` — the source indexes the
destination by `sourceChannelNum`, not by `i`.  Entries with stride 0 are
skipped; a write through a null view slot is a crash (`none`). -/
def deinterleaveLoop (inB : Buffers) (infos : Nat → CallbackDetailsForChannel)
    (bufferSize : Nat) : Nat → TempBufs → Option TempBufs
  | 0, temp => some temp
  | i+1, temp =>
      if (infos i).dataStrideSamples = 0 then
        deinterleaveLoop inB infos bufferSize i temp
      else
        match temp (infos i).sourceChannelNum with
        | none => none
        | some buf =>
            deinterleaveLoop inB infos bufferSize i
              (fun c => if c = (infos i).sourceChannelNum then
                  some (fun k => if k < bufferSize then
                      inB (infos i).streamNum
                        ((infos i).dataOffsetSamples + k * (infos i).dataStrideSamples)
                    else buf k)
                else temp c)

/-- The client invocation (lines 601-616): the client writes its output into
`tempOutputBuffers [0 .. numOutputChans)`.  What it writes is its own
business, abstracted as `clientOut` (channel and frame to value). -/
def invokeClient (clientOut : Nat → Nat → Int) (bufferSize : Nat)
    (temp : TempBufs) : Nat → Option TempBufs
  | 0 => some temp
  | i+1 =>
      match invokeClient clientOut bufferSize temp i with
      | none => none
      | some t =>
          match t i with
          | none => none
          | some buf =>
              some (fun c => if c = i then
                  some (fun k => if k < bufferSize then clientOut i k else buf k)
                else t c)

/-- One channel of the output half of `audioCallback` (lines 628-633): write
`buf k` to stream `info.streamNum` at `dataOffsetSamples + k * stride` for
`k` from 0 to `count - 1`. -/
def interleaveSamples (buf : Nat → Int) (info : CallbackDetailsForChannel)
    (outB : Buffers) : Nat → Buffers
  | 0 => outB
  | k+1 => updateBuf (interleaveSamples buf info outB k) info.streamNum
      (info.dataOffsetSamples + k * info.dataStrideSamples) (buf k)

/-- The output half of `audioCallback` (lines 618-634): for `i` from
`numOutputChans - 1` down to 0, interleave `tempOutputBuffers [i]` into the
OS output buffers, skipping stride-0 entries. -/
def interleaveLoop (temp : TempBufs) (infos : Nat → CallbackDetailsForChannel)
    (bufferSize : Nat) : Nat → Buffers → Option Buffers
  | 0, outB => some outB
  | i+1, outB =>
      if (infos i).dataStrideSamples = 0 then
        interleaveLoop temp infos bufferSize i outB
      else
        match temp i with
        | none => none
        | some buf =>
            interleaveLoop temp infos bufferSize i
              (interleaveSamples buf (infos i) outB bufferSize)

/-- One channel of the no-client zero-fill (lines 646-653): write 0 to stream
`info.streamNum` at `dataOffsetSamples + k * stride` for `k` below `count`. -/
def zeroSamples (info : CallbackDetailsForChannel) (outB : Buffers) : Nat → Buffers
  | 0 => outB
  | k+1 => updateBuf (zeroSamples info outB k) info.streamNum
      (info.dataOffsetSamples + k * info.dataStrideSamples) 0

/-- The no-client branch of `audioCallback` (lines 639-654): for `i` from
`jmin (numOutputChans, numOutputChannelInfos) - 1` down to 0, zero the active
output slots, skipping stride-0 entries. -/
def zeroFillLoop (infos : Nat → CallbackDetailsForChannel) (bufferSize : Nat) :
    Nat → Buffers → Buffers
  | 0, outB => outB
  | i+1, outB =>
      zeroFillLoop infos bufferSize i
        (if (infos i).dataStrideSamples = 0 then outB
         else zeroSamples (infos i) outB bufferSize)

/-- `CoreAudioInternal::audioCallback` (lines 568-656).  Returns the updated
state, the OS output buffers and the list of client events, or `none` when
the code dereferences a null view pointer.  When `hasInputDevice` is set the
client is handed the slave's capture buffers, whose contents do not influence
the opaque `clientOut`, and the master's own deinterleave is skipped, exactly
as in the source. -/
def audioCallback (clientOut : Nat → Nat → Int) (inB : Buffers) (outB : Buffers)
    (s : CoreAudioState) : Option (CoreAudioState × Buffers × List ClientEvent) :=
  match s.callback with
  | none =>
      some (s, zeroFillLoop s.outputChannelInfo s.bufferSize
              (min s.numOutputChans s.numOutputChannelInfos) outB, [])
  | some _ =>
      match (if s.hasInputDevice then some s.tempInputBuffers
             else deinterleaveLoop inB s.inputChannelInfo s.bufferSize
                    s.numInputChans s.tempInputBuffers) with
      | none => none
      | some tempIn =>
          if s.isSlaveDevice then
            some ({ s with tempInputBuffers := tempIn }, outB, [])
          else
            match invokeClient clientOut s.bufferSize s.tempOutputBuffers
                    s.numOutputChans with
            | none => none
            | some tempOut =>
                match interleaveLoop tempOut s.outputChannelInfo s.bufferSize
                        s.numOutputChans outB with
                | none => none
                | some outB2 =>
                    some ({ s with tempInputBuffers := tempIn,
                                   tempOutputBuffers := tempOut },
                          outB2, [ClientEvent.ioCallback])

/-- `CoreAudioInternal::start` (lines 487-519) for a single core.  `osOk`
abstracts whether `AudioDeviceAddIOProc` and `AudioDeviceStart` both
succeed.  Note that the source sets `callback = cb` whenever `started` holds
at the end, on the slave as well as on the master. -/
def start (osOk : Bool) (cb : Nat) (s : CoreAudioState) : CoreAudioState :=
  let s1 :=
    if s.started then s
    else if s.deviceID ≠ 0 ∧ osOk = true then
      { s with callback := none, started := true }
    else
      { s with callback := none }
  if s1.started then { s1 with callback := some cb } else s1

/-- `start` on a master that may own a slave: line 516 of
`CoreAudioInternal::start` returns `started && inputDevice->start (cb)`,
and the `&&` short-circuits — when the master did not start, the slave's
`start` is never invoked (its client stays unset) and the result is false;
otherwise the slave is started with the same client and, having no slave of
its own, its `start` returns its own `started`. -/
def startPair (osOkMaster osOkSlave : Bool) (cb : Nat) (p : DevicePair) :
    DevicePair × Bool :=
  let m := start osOkMaster cb p.master
  match p.slave with
  | none => (⟨m, none⟩, m.started)
  | some sl =>
      if m.started then
        (⟨m, some (start osOkSlave cb sl)⟩, (start osOkSlave cb sl).started)
      else
        (⟨m, some sl⟩, false)

/-- `CoreAudioInternal::stop` (lines 521-556) for a single core: the client
pointer is always cleared; the OS proc is stopped and removed (and `started`
cleared) only when the core was started, has a real device id, and
`leaveInterruptRunning` is false.  The quiescence polling has no effect on
the modelled state. -/
def stop (leaveInterruptRunning : Bool) (s : CoreAudioState) : CoreAudioState :=
  if s.started = true ∧ s.deviceID ≠ 0 ∧ leaveInterruptRunning = false then
    { s with callback := none, started := false }
  else
    { s with callback := none }

/-- What one run of `updateDetailsFromDevice` (lines 213-327) reads from the
OS: the nominal sample rate, the buffer frame size, the resulting available
rate and size lists (the construction of the size list from the OS range
list is modelled separately by `buildBufferSizes`), and the routing entries
that `fillInChannelInfo` derives from the stream configuration and the
active-channel masks. -/
structure OSSnapshot where
  rate : Nat
  size : Nat
  rates : List Nat
  sizes : List Int
  inputInfos : List CallbackDetailsForChannel
  outputInfos : List CallbackDetailsForChannel

/-- `CoreAudioInternal::updateDetailsFromDevice` (lines 213-327): a no-op for
device id 0; otherwise installs the snapshot's sample rate, buffer size
(reallocating the temp views when it is positive), rate and size lists, and
the rebuilt channel routings (entries past the rebuilt count stay zeroed, as
after the `zeromem` of lines 322-323). -/
def updateDetailsFromDevice (snap : OSSnapshot) (s : CoreAudioState) : CoreAudioState :=
  if s.deviceID = 0 then s
  else
    { s with
        sampleRate := snap.rate
        bufferSize := snap.size
        tempInputBuffers :=
          if 0 < snap.size then (setTempBufferSize s.numInputChans s.numOutputChans).1
          else s.tempInputBuffers
        tempOutputBuffers :=
          if 0 < snap.size then (setTempBufferSize s.numInputChans s.numOutputChans).2
          else s.tempOutputBuffers
        sampleRates := snap.rates
        bufferSizes := snap.sizes
        numInputChannelInfos := snap.inputInfos.length
        numOutputChannelInfos := snap.outputInfos.length
        inputChannelInfo := fun i => snap.inputInfos.getD i ⟨0, 0, 0, 0⟩
        outputChannelInfo := fun i => snap.outputInfos.getD i ⟨0, 0, 0, 0⟩ }

/-- The polling loop of `reopen` (lines 456-465): `int i = 30; while (--i >= 0)`
runs `updateDetailsFromDevice` up to 30 times, stopping as soon as the
observed sample rate and buffer size equal the requested ones.  `t` numbers
the polls, so the oracle can make the OS converge after any number of
them.  Returns the threaded state and whether the loop broke early
(`i < 0` in the source is the `false` case). -/
def reopenLoop (os : Nat → OSSnapshot) (reqRate reqSize : Nat) :
    Nat → Nat → CoreAudioState → CoreAudioState × Bool
  | 0, _, s => (s, false)
  | fuel+1, t, s =>
      if (updateDetailsFromDevice (os t) s).sampleRate = reqRate ∧
         (updateDetailsFromDevice (os t) s).bufferSize = reqSize then
        (updateDetailsFromDevice (os t) s, true)
      else
        reopenLoop os reqRate reqSize fuel (t+1) (updateDetailsFromDevice (os t) s)

def couldntChangeMsg : String := "Couldn\x27t change sample rate/buffer size"

def noRatesMsg : String := "Device has no available sample-rates"

def noSizesMsg : String := "Device has no available buffer-sizes"

/-- The error value of `reopen` before the slave is consulted
(lines 467-474): non-convergence is overridden by an empty rate list, which
is overridden by an empty size list. -/
def preSlaveError (converged : Bool) (rates : List Nat) (sizes : List Int) : String :=
  if sizes = [] then noSizesMsg
  else if rates = [] then noRatesMsg
  else if converged = true then "" else couldntChangeMsg

/-- Lines 476-484: when no error occurred so far, the slave's `reopen` result
(`none` when there is no slave) becomes the error. -/
def reopenErrorChain (converged : Bool) (rates : List Nat) (sizes : List Int)
    (slaveErr : Option String) : String :=
  if preSlaveError converged rates sizes = "" then
    match slaveErr with
    | some e => e
    | none => ""
  else preSlaveError converged rates sizes

/-- The state and convergence flag after the polling phase of `reopen`:
callbacks are disabled, the core is stopped with `stop (false)`, and the
loop runs with fuel 30.  The active-mask truncation of lines 428-440 only
touches the mask bookkeeping, which no modelled operation reads, and is
elided. -/
def reopenLoopResult (os : Nat → OSSnapshot) (reqRate reqSize : Nat)
    (s : CoreAudioState) : CoreAudioState × Bool :=
  reopenLoop os reqRate reqSize 30 0 (stop false { s with callbacksAllowed := false })

/-- `CoreAudioInternal::reopen` (lines 416-485): returns the final state
(callbacks re-enabled) and the error string. -/
structure ReopenResult where
  state : CoreAudioState
  error : String

def reopen (os : Nat → OSSnapshot) (reqRate reqSize : Nat)
    (slaveErr : Option String) (s : CoreAudioState) : ReopenResult :=
  ⟨{ (reopenLoopResult os reqRate reqSize s).1 with callbacksAllowed := true },
   reopenErrorChain (reopenLoopResult os reqRate reqSize s).2
     (reopenLoopResult os reqRate reqSize s).1.sampleRates
     (reopenLoopResult os reqRate reqSize s).1.bufferSizes
     slaveErr⟩

/-- `CoreAudioInternal::timerCallback` (lines 665-681), the debounced
reaction to an OS property change: refresh from the OS; if the sample rate
or the buffer size changed, disable callbacks, `stop (false)`, refresh again
and re-enable callbacks.  The two refreshes read the OS at snapshots
`snap1` and `snap2`.  The returned event list records what was delivered to
the client on this path (nothing: neither branch calls the client). -/
def timerCallback (snap1 snap2 : OSSnapshot) (s : CoreAudioState) :
    CoreAudioState × List ClientEvent :=
  if s.bufferSize ≠ (updateDetailsFromDevice snap1 s).bufferSize ∨
     s.sampleRate ≠ (updateDetailsFromDevice snap1 s).sampleRate then
    ({ updateDetailsFromDevice snap2
         (stop false { updateDetailsFromDevice snap1 s with callbacksAllowed := false })
       with callbacksAllowed := true }, [])
  else (updateDetailsFromDevice snap1 s, [])

/-- `CoreAudioIODevice::stop` (lines 1037-1049), the facade's stop:
captures the client, clears `isStarted`, stops the core leaving the
interrupt running, and delivers `audioDeviceStopped` to the captured
client. -/
structure FacadeState where
  core : CoreAudioState
  isOpen : Bool
  isStarted : Bool

def facadeStop (f : FacadeState) : FacadeState × List ClientEvent :=
  if f.isStarted then
    ({ f with core := stop true f.core, isStarted := false },
     match f.core.callback with
     | some _ => [ClientEvent.stopped]
     | none => [])
  else (f, [])

/-- The scan loop of `getCurrentSourceIndex` (lines 378-385): the source
compares `types [num]` — one element past the end of the list, modelled by
the unspecified value `oobVal` — against the current source id on every
iteration, instead of `types [i]`. -/
def sourceScan (oobVal currentSourceID : Nat) : Nat → Nat → Int
  | 0, _ => -1
  | rem+1, i =>
      if oobVal = currentSourceID then Int.ofNat i
      else sourceScan oobVal currentSourceID rem (i+1)

/-- `CoreAudioInternal::getCurrentSourceIndex` (lines 362-393): -1 when the
device id is 0 or the `DataSource` property cannot be read (`propReadOk`),
or when `getAllDataSourcesForDevice` fails (`dataSources = none`); otherwise
the result of the scan loop over the `num` list entries. -/
def getCurrentSourceIndex (deviceID : Nat) (propReadOk : Bool)
    (currentSourceID : Nat) (dataSources : Option (List Nat)) (oobVal : Nat) : Int :=
  if deviceID ≠ 0 ∧ propReadOk = true then
    match dataSources with
    | some types => sourceScan oobVal currentSourceID types.length 0
    | none => -1
  else -1

/-- The error a freshly constructed `CoreAudioInternal` carries
(lines 89-121): the constructor rejects device id 0 with "can't open
device"; whether the OS accepts a nonzero id is external behavior,
abstracted by the oracle `osErr` (empty string means the open succeeds). -/
def internalError (osErr : Nat → String) (id : Nat) : String :=
  if id = 0 then "can\x27t open device" else osErr id

/-- The observable outcome of the `CoreAudioIODevice` constructor: the
resolved indices, whether an internal core was kept and for which id,
whether a slave was attached and with which construction error, and the
facade's `lastError`. -/
structure IODeviceModel where
  inputIndex : Int
  outputIndex : Int
  hasInternal : Bool
  masterId : Nat
  slaveAttached : Bool
  slaveError : String
  lastError : String
deriving DecidableEq

/-- `CoreAudioIODevice::CoreAudioIODevice` (lines 840-894).  With a zero or
duplicate output id, a single core is built from the input id.  Otherwise
the master is built from the output id; on master failure it is deleted and
`lastError` kept.  When the master opens and the input id is nonzero, a
second core is built from the input id — and line 876 then reads
`lastError = device->error`, the MASTER's (empty) error, instead of
`secondDevice->error`, so the delete-slave branch below it is unreachable
and the slave is attached with its own error never checked. -/
def mkCoreAudioIODevice (osErr : Nat → String) (inputDeviceId : Nat)
    (inputIndex : Int) (outputDeviceId : Nat) (outputIndex : Int) : IODeviceModel :=
  if outputDeviceId = 0 ∨ outputDeviceId = inputDeviceId then
    if internalError osErr inputDeviceId ≠ "" then
      ⟨inputIndex, outputIndex, false, 0, false, "", internalError osErr inputDeviceId⟩
    else
      ⟨inputIndex, outputIndex, true, inputDeviceId, false, "", ""⟩
  else
    if internalError osErr outputDeviceId ≠ "" then
      ⟨inputIndex, outputIndex, false, 0, false, "", internalError osErr outputDeviceId⟩
    else if inputDeviceId ≠ 0 then
      if internalError osErr outputDeviceId ≠ "" then
        ⟨inputIndex, outputIndex, true, outputDeviceId, false, "",
         internalError osErr outputDeviceId⟩
      else
        ⟨inputIndex, outputIndex, true, outputDeviceId, true,
         internalError osErr inputDeviceId, ""⟩
    else
      ⟨inputIndex, outputIndex, true, outputDeviceId, false, "", ""⟩

/-- `StringArray::indexOf` semantics: first position of `n`, or -1. -/
def indexOfFrom (n : String) : List String → Nat → Int
  | [], _ => -1
  | x :: xs, k => if x = n then Int.ofNat k else indexOfFrom n xs (k+1)

def indexOfName (names : List String) (n : String) : Int := indexOfFrom n names 0

/-- JUCE `Array` subscripting: out-of-range (including the -1 of a failed
name lookup) yields a default-constructed id, 0. -/
def lookupId (ids : List Nat) (i : Int) : Nat :=
  if 0 ≤ i then ids.getD i.toNat 0 else 0

/-- `CoreAudioIODeviceType::createDevice` (lines 1543-1563): resolves both
names against the scanned tables.  The guard in the source reads
`if (index >= 0)` but no local named `index` exists; the identifier resolves
to the C library function of that name, a non-null function pointer, so the
test is always satisfied and a device is constructed unconditionally from
whatever the lookups produced. -/
def createDevice (osErr : Nat → String) (inputDeviceNames outputDeviceNames : List String)
    (inputIds outputIds : List Nat) (outputDeviceName inputDeviceName : String) :
    Option IODeviceModel :=
  some (mkCoreAudioIODevice osErr
    (lookupId inputIds (indexOfName inputDeviceNames inputDeviceName))
    (indexOfName inputDeviceNames inputDeviceName)
    (lookupId outputIds (indexOfName outputDeviceNames outputDeviceName))
    (indexOfName outputDeviceNames outputDeviceName))

/-- `Array::addIfNotAlreadyThere`: append when absent. -/
def addIfNotAlreadyThere (l : List Int) (x : Int) : List Int :=
  if x ∈ l then l else l ++ [x]

/-- Lines 250-257: does any OS range contain the candidate size? -/
def inAnyRange (ranges : List (Int × Int)) (i : Int) : Bool :=
  ranges.any fun r => decide (r.1 ≤ i) && decide (i ≤ r.2)

/-- Lines 248-258: `for (int i = 32; i < 8192; i += 32)` — 255 candidates,
each appended when some range contains it. -/
def gridLoop (ranges : List (Int × Int)) : Int → Nat → List Int → List Int
  | _, 0, acc => acc
  | i, fuel+1, acc =>
      gridLoop ranges (i + 32) fuel
        (if inAnyRange ranges i then addIfNotAlreadyThere acc i else acc)

/-- The `bufferSizes` list as `updateDetailsFromDevice` builds it
(lines 238-268): seeded with `ranges[0].mMinimum`, extended over the
32-step grid, then the current buffer size is appended when absent; when
the OS range read fails (`ranges = []`) the current size becomes a
singleton fallback. -/
def buildBufferSizes (ranges : List (Int × Int)) (currentBufferSize : Int) : List Int :=
  match ranges with
  | [] => if 0 < currentBufferSize then [currentBufferSize] else []
  | r0 :: _ =>
      if 0 < currentBufferSize then
        addIfNotAlreadyThere (gridLoop ranges 32 255 [r0.1]) currentBufferSize
      else gridLoop ranges 32 255 [r0.1]

/-- `CoreAudioIODevice::getDefaultBufferSize` (lines 937-944): walk the
available-size list in order and return the first entry that is at least
512, else 512. -/
def getDefaultBufferSize : List Int → Int
  | [] => 512
  | x :: xs => if 512 ≤ x then x else getDefaultBufferSize xs

/-- What the design document says `getDefaultBufferSize` computes: the
smallest available size that is at least 512, else 512.  Stated from the
specification for comparison with the source's `getDefaultBufferSize`. -/
def smallestAtLeast512 (sizes : List Int) : Int :=
  match sizes.filter (fun x => decide (512 ≤ x)) with
  | [] => 512
  | x :: xs => xs.foldl min x

/-- A baseline core: freshly constructed for device id 1, defaults as in the
constructor (lines 89-121), no channels active yet. -/
def baseState : CoreAudioState :=
  { deviceID := 1
    started := false
    callbacksAllowed := true
    isSlaveDevice := false
    hasInputDevice := false
    callback := none
    sampleRate := 44100
    bufferSize := 4
    numInputChans := 0
    numOutputChans := 0
    numInputChannelInfos := 0
    numOutputChannelInfos := 0
    inputChannelInfo := fun _ => ⟨0, 0, 0, 0⟩
    outputChannelInfo := fun _ => ⟨0, 0, 0, 0⟩
    tempInputBuffers := fun _ => none
    tempOutputBuffers := fun _ => none
    sampleRates := [44100]
    bufferSizes := [512] }

/-- A 2-channel single-stream input device opened with the sparse active
input mask 0b10 and a client bound: `fillInChannelInfo` (lines 156-211)
yields the single routing entry `sourceChannelNum = 1, streamNum = 0,
dataOffsetSamples = 1, dataStrideSamples = 2`, `numInputChans = 1`, and
`setTempBufferSize` allocates view slot 0 only. -/
def sparseMaskState : CoreAudioState :=
  { baseState with
      started := true
      callback := some 7
      numInputChans := 1
      numInputChannelInfos := 1
      inputChannelInfo := fun _ => ⟨1, 0, 1, 2⟩
      tempInputBuffers := (setTempBufferSize 1 0).1
      tempOutputBuffers := (setTempBufferSize 1 0).2 }

/-- A started device with one active output channel (stride 2 interleaved
stream) and no client bound. -/
def noClientState : CoreAudioState :=
  { baseState with
      started := true
      numOutputChans := 1
      numOutputChannelInfos := 1
      outputChannelInfo := fun _ => ⟨0, 0, 0, 2⟩
      bufferSize := 3 }

/-- A slave core (input device of an aggregate): one active input channel
and one active output channel, not yet started. -/
def slaveInit : CoreAudioState :=
  { baseState with
      deviceID := 2
      isSlaveDevice := true
      numInputChans := 1
      numInputChannelInfos := 1
      inputChannelInfo := fun _ => ⟨0, 0, 0, 1⟩
      numOutputChans := 1
      numOutputChannelInfos := 1
      outputChannelInfo := fun _ => ⟨0, 0, 0, 1⟩
      tempInputBuffers := (setTempBufferSize 1 1).1
      tempOutputBuffers := (setTempBufferSize 1 1).2
      bufferSize := 2 }

/-- A master core that owns a slave. -/
def masterInit : CoreAudioState :=
  { baseState with
      hasInputDevice := true
      numOutputChans := 1
      numOutputChannelInfos := 1
      outputChannelInfo := fun _ => ⟨0, 0, 0, 1⟩
      tempOutputBuffers := (setTempBufferSize 0 1).2
      bufferSize := 2 }

/-- An OS oracle that reports 48000 Hz and 256 frames from the first poll
on, with non-empty availability lists. -/
def convergingOS : Nat → OSSnapshot :=
  fun _ => ⟨48000, 256, [48000], [256], [], []⟩

/-- An OS oracle that stays at 44100 Hz and 512 frames forever. -/
def stuckOS : Nat → OSSnapshot :=
  fun _ => ⟨44100, 512, [44100], [512], [], []⟩

/-- A started core with a bound client, about to be reconfigured. -/
def startedState : CoreAudioState :=
  { baseState with started := true, callback := some 7 }

/-- An open-failure oracle: the OS rejects device id 2. -/
def exampleOpenError : Nat → String :=
  fun id => if id = 2 then "device rejected" else ""

theorem zeroSamples_preserve (info : CallbackDetailsForChannel) (outB : Buffers)
    (s n : Nat) (h : outB s n = 0) : ∀ m, zeroSamples info outB m s n = 0 := by
  intro m
  induction m with
  | zero => exact h
  | succ m ih =>
      simp only [zeroSamples, updateBuf]
      split
      · rfl
      · exact ih

theorem zeroSamples_zero_at (info : CallbackDetailsForChannel) (outB : Buffers) :
    ∀ (m k : Nat), k < m →
      zeroSamples info outB m info.streamNum
        (info.dataOffsetSamples + k * info.dataStrideSamples) = 0 := by
  intro m
  induction m with
  | zero => intro k hk; exact absurd hk (Nat.not_lt_zero k)
  | succ m ih =>
      intro k hk
      simp only [zeroSamples, updateBuf, true_and]
      by_cases h : info.dataOffsetSamples + k * info.dataStrideSamples =
          info.dataOffsetSamples + m * info.dataStrideSamples
      · rw [if_pos h]
      · rw [if_neg h]
        rcases Nat.lt_succ_iff_lt_or_eq.mp hk with h1 | h1
        · exact ih k h1
        · exact absurd (by rw [h1]) h

theorem zeroFillLoop_preserve (infos : Nat → CallbackDetailsForChannel)
    (bufferSize s n : Nat) : ∀ (m : Nat) (outB : Buffers), outB s n = 0 →
      zeroFillLoop infos bufferSize m outB s n = 0 := by
  intro m
  induction m with
  | zero => intro outB h; exact h
  | succ m ih =>
      intro outB h
      simp only [zeroFillLoop]
      apply ih
      by_cases hc : (infos m).dataStrideSamples = 0
      · rw [if_pos hc]; exact h
      · rw [if_neg hc]; exact zeroSamples_preserve (infos m) outB s n h bufferSize

theorem zeroFillLoop_covered (infos : Nat → CallbackDetailsForChannel)
    (bufferSize i k : Nat) (hstride : (infos i).dataStrideSamples ≠ 0)
    (hk : k < bufferSize) :
    ∀ (m : Nat) (outB : Buffers), i < m →
      zeroFillLoop infos bufferSize m outB (infos i).streamNum
        ((infos i).dataOffsetSamples + k * (infos i).dataStrideSamples) = 0 := by
  intro m
  induction m with
  | zero => intro outB hi; exact absurd hi (Nat.not_lt_zero i)
  | succ m ih =>
      intro outB hi
      simp only [zeroFillLoop]
      rcases Nat.lt_succ_iff_lt_or_eq.mp hi with h1 | h1
      · exact ih _ h1
      · subst h1
        rw [if_neg hstride]
        exact zeroFillLoop_preserve infos bufferSize _ _ i _
          (zeroSamples_zero_at (infos i) outB bufferSize k hk)

/-- Claim C1, evaluated at the failing input: on a started single device
(no slave) with a client bound and the sparse active input mask 0b10, one
invocation of `audioCallback` is not a perfect deinterleave — the input loop
indexes the destination views by `sourceChannelNum` (line 581), which is 1,
a view slot `setTempBufferSize` left as a null pointer, so the callback
crashes and `tempInputBuffers [0]` never receives the OS samples. -/
theorem audioCallback_sparse_mask_crash :
    audioCallback (fun _ _ => 0) (fun _ n => Int.ofNat n) (fun _ _ => 0)
      sparseMaskState = none := rfl

/-- Claim C3: whenever `audioCallback` runs with no client bound, every
sample slot of every active output channel — located via the output routing
at `dataOffsetSamples + k * stride`, entries with stride 0 skipped — is zero
after the callback. -/
theorem audioCallback_no_client_zero_fill (g : Nat → Nat → Int) (inB outB : Buffers)
    (s : CoreAudioState) (i k : Nat)
    (hc : s.callback = none)
    (hi : i < min s.numOutputChans s.numOutputChannelInfos)
    (hstride : (s.outputChannelInfo i).dataStrideSamples ≠ 0)
    (hk : k < s.bufferSize) :
    (audioCallback g inB outB s).map
      (fun r => r.2.1 (s.outputChannelInfo i).streamNum
        ((s.outputChannelInfo i).dataOffsetSamples +
          k * (s.outputChannelInfo i).dataStrideSamples)) = some 0 := by
  simp only [audioCallback, hc, Option.map_some', Option.some.injEq]
  exact zeroFillLoop_covered s.outputChannelInfo s.bufferSize i k hstride hk _ outB hi

/-- Claim C3, witness: the zero-fill observed on a concrete one-channel
stride-2 device with every OS output sample initially 9. -/
theorem audioCallback_no_client_zero_fill_witness :
    (audioCallback (fun _ _ => 0) (fun _ _ => 0) (fun _ _ => 9) noClientState).map
      (fun r => r.2.1 (noClientState.outputChannelInfo 0).streamNum
        ((noClientState.outputChannelInfo 0).dataOffsetSamples +
          1 * (noClientState.outputChannelInfo 0).dataStrideSamples)) = some 0 :=
  audioCallback_no_client_zero_fill (fun _ _ => 0) (fun _ _ => 0) (fun _ _ => 9)
    noClientState 0 1 rfl (by decide) (by decide) (by decide)

/-- Claim C4, counterexample: after `start (cb)` on a master that has a
slave, the slave's client does not remain unset — it is `cb` — and the
slave's I/O proc does not zero-fill the slave's active output slots: at the
concrete slave below the OS output sample at stream 0, position 0 (covered
by the slave's output routing) still holds its initial value 5 after the
slave's callback. -/
theorem start_sets_slave_client_counterexample :
    ((startPair true true 7 ⟨masterInit, some slaveInit⟩).1.slave.map
        CoreAudioState.callback = some (some 7)) ∧
    ((audioCallback (fun _ _ => 0) (fun _ _ => 3) (fun _ _ => 5)
        (start true 7 slaveInit)).map (fun r => r.2.1 0 0) = some 5) := ⟨rfl, rfl⟩

/-- Claim C4 (amended): after `start (cb)` on a master that has a slave and
whose own start succeeds (on master failure the `&&` of line 516
short-circuits and the slave is never started), the slave's client is set
to `cb` as well; but because `isSlaveDevice` is true the slave's I/O proc
neither invokes the client nor touches (in particular never zero-fills) the
OS output buffers or the temp output views — it only deinterleaves the OS
input into the slave's `tempInputBuffers` for the master to read. -/
theorem start_slave_keeps_inputs_only (cb : Nat) (m sl : CoreAudioState)
    (okMaster : Bool) (g : Nat → Nat → Int) (inB outB : Buffers)
    (hms : (start okMaster cb m).started = true)
    (hid : sl.deviceID ≠ 0) (hns : sl.started = false)
    (hslv : sl.isSlaveDevice = true) (hnodev : sl.hasInputDevice = false) :
    (start true cb sl).callback = some cb ∧
    (startPair okMaster true cb ⟨m, some sl⟩).1.slave = some (start true cb sl) ∧
    (∀ r, audioCallback g inB outB (start true cb sl) = some r →
      r.2.1 = outB ∧ r.2.2 = [] ∧ r.1.tempOutputBuffers = sl.tempOutputBuffers) := by
  have hcb : (start true cb sl).callback = some cb := by
    simp [start, hns, hid]
  have hio : (start true cb sl).isSlaveDevice = true := by
    simp [start, hns, hid, hslv]
  have hhd : (start true cb sl).hasInputDevice = false := by
    simp [start, hns, hid, hnodev]
  have hto : (start true cb sl).tempOutputBuffers = sl.tempOutputBuffers := by
    simp [start, hns, hid]
  have hsp : (startPair okMaster true cb ⟨m, some sl⟩).1.slave =
      some (start true cb sl) := by
    simp [startPair, hms]
  refine ⟨hcb, hsp, ?_⟩
  intro r hr
  simp only [audioCallback, hcb, hhd] at hr
  cases hdl : deinterleaveLoop inB (start true cb sl).inputChannelInfo
      (start true cb sl).bufferSize (start true cb sl).numInputChans
      (start true cb sl).tempInputBuffers with
  | none => rw [hdl] at hr; exact absurd hr (by simp)
  | some t =>
      rw [hdl] at hr
      simp only [hio, if_true] at hr
      injection hr with h2
      subst h2
      exact ⟨rfl, rfl, hto⟩

/-- Claim C4, witness for the amended statement, at the concrete
master/slave pair. -/
theorem start_slave_keeps_inputs_only_witness :
    (start true 7 slaveInit).callback = some 7 ∧
    (startPair true true 7 ⟨masterInit, some slaveInit⟩).1.slave =
      some (start true 7 slaveInit) :=
  ⟨(start_slave_keeps_inputs_only 7 masterInit slaveInit true (fun _ _ => 0)
      (fun _ _ => 3) (fun _ _ => 5) (by decide) (by decide) rfl rfl rfl).1,
   (start_slave_keeps_inputs_only 7 masterInit slaveInit true (fun _ _ => 0)
      (fun _ _ => 3) (fun _ _ => 5) (by decide) (by decide) rfl rfl rfl).2.1⟩

theorem updateDetails_callback (snap : OSSnapshot) (s : CoreAudioState) :
    (updateDetailsFromDevice snap s).callback = s.callback := by
  unfold updateDetailsFromDevice; split <;> rfl

theorem updateDetails_started (snap : OSSnapshot) (s : CoreAudioState) :
    (updateDetailsFromDevice snap s).started = s.started := by
  unfold updateDetailsFromDevice; split <;> rfl

theorem updateDetails_deviceID (snap : OSSnapshot) (s : CoreAudioState) :
    (updateDetailsFromDevice snap s).deviceID = s.deviceID := by
  unfold updateDetailsFromDevice; split <;> rfl

theorem updateDetails_rate (snap : OSSnapshot) (s : CoreAudioState)
    (h : s.deviceID ≠ 0) : (updateDetailsFromDevice snap s).sampleRate = snap.rate := by
  unfold updateDetailsFromDevice; rw [if_neg h]

theorem updateDetails_size (snap : OSSnapshot) (s : CoreAudioState)
    (h : s.deviceID ≠ 0) : (updateDetailsFromDevice snap s).bufferSize = snap.size := by
  unfold updateDetailsFromDevice; rw [if_neg h]

theorem updateDetails_lists (snap : OSSnapshot) (s : CoreAudioState)
    (h1 : s.sampleRates ≠ []) (h2 : s.bufferSizes ≠ [])
    (h3 : snap.rates ≠ []) (h4 : snap.sizes ≠ []) :
    (updateDetailsFromDevice snap s).sampleRates ≠ [] ∧
    (updateDetailsFromDevice snap s).bufferSizes ≠ [] := by
  unfold updateDetailsFromDevice; split
  · exact ⟨h1, h2⟩
  · exact ⟨h3, h4⟩

theorem stop_clears_callback (l : Bool) (s : CoreAudioState) :
    (stop l s).callback = none := by
  unfold stop; split <;> rfl

theorem stop_deviceID (l : Bool) (s : CoreAudioState) :
    (stop l s).deviceID = s.deviceID := by
  unfold stop; split <;> rfl

theorem stop_sampleRates (l : Bool) (s : CoreAudioState) :
    (stop l s).sampleRates = s.sampleRates := by
  unfold stop; split <;> rfl

theorem stop_bufferSizes (l : Bool) (s : CoreAudioState) :
    (stop l s).bufferSizes = s.bufferSizes := by
  unfold stop; split <;> rfl

theorem stop_false_not_started (s : CoreAudioState)
    (h : s.started = true → s.deviceID ≠ 0) : (stop false s).started = false := by
  unfold stop
  by_cases hs : s.started = true
  · rw [if_pos ⟨hs, h hs, rfl⟩]
  · rw [if_neg fun hand => hs hand.1]
    simpa using hs

theorem reopenLoop_converged (os : Nat → OSSnapshot) (reqRate reqSize : Nat) :
    ∀ (fuel t : Nat) (s : CoreAudioState),
      (reopenLoop os reqRate reqSize fuel t s).2 = true →
      (reopenLoop os reqRate reqSize fuel t s).1.sampleRate = reqRate ∧
      (reopenLoop os reqRate reqSize fuel t s).1.bufferSize = reqSize := by
  intro fuel
  induction fuel with
  | zero => intro t s h; exact absurd h (by simp [reopenLoop])
  | succ fuel ih =>
      intro t s h
      by_cases hc : (updateDetailsFromDevice (os t) s).sampleRate = reqRate ∧
          (updateDetailsFromDevice (os t) s).bufferSize = reqSize
      · simp only [reopenLoop, if_pos hc]
        exact hc
      · simp only [reopenLoop, if_neg hc] at h ⊢
        exact ih (t+1) _ h

theorem reopenLoop_not_matching (os : Nat → OSSnapshot) (reqRate reqSize : Nat) :
    ∀ (fuel t : Nat) (s : CoreAudioState), s.deviceID ≠ 0 →
      (∀ u, t ≤ u → u < t + fuel → ¬((os u).rate = reqRate ∧ (os u).size = reqSize)) →
      (reopenLoop os reqRate reqSize fuel t s).2 = false := by
  intro fuel
  induction fuel with
  | zero => intro t s _ _; simp [reopenLoop]
  | succ fuel ih =>
      intro t s hid hnm
      have hc : ¬((updateDetailsFromDevice (os t) s).sampleRate = reqRate ∧
          (updateDetailsFromDevice (os t) s).bufferSize = reqSize) := by
        rw [updateDetails_rate (os t) s hid, updateDetails_size (os t) s hid]
        exact hnm t (Nat.le_refl t) (by omega)
      simp only [reopenLoop, if_neg hc]
      apply ih (t+1)
      · rw [updateDetails_deviceID]; exact hid
      · intro u hu1 hu2
        exact hnm u (by omega) (by omega)

theorem reopenLoop_lists (os : Nat → OSSnapshot) (reqRate reqSize : Nat)
    (hro : ∀ u, (os u).rates ≠ []) (hbo : ∀ u, (os u).sizes ≠ []) :
    ∀ (fuel t : Nat) (s : CoreAudioState),
      s.sampleRates ≠ [] → s.bufferSizes ≠ [] →
      (reopenLoop os reqRate reqSize fuel t s).1.sampleRates ≠ [] ∧
      (reopenLoop os reqRate reqSize fuel t s).1.bufferSizes ≠ [] := by
  intro fuel
  induction fuel with
  | zero => intro t s h1 h2; exact ⟨h1, h2⟩
  | succ fuel ih =>
      intro t s h1 h2
      have hup := updateDetails_lists (os t) s h1 h2 (hro t) (hbo t)
      by_cases hc : (updateDetailsFromDevice (os t) s).sampleRate = reqRate ∧
          (updateDetailsFromDevice (os t) s).bufferSize = reqSize
      · simp only [reopenLoop, if_pos hc]
        exact hup
      · simp only [reopenLoop, if_neg hc]
        exact ih (t+1) _ hup.1 hup.2

theorem couldntChangeMsg_ne : couldntChangeMsg ≠ "" := by decide

theorem noRatesMsg_ne : noRatesMsg ≠ "" := by decide

theorem noSizesMsg_ne : noSizesMsg ≠ "" := by decide

theorem preSlaveError_empty_imp (c : Bool) (rates : List Nat) (sizes : List Int)
    (h : preSlaveError c rates sizes = "") : c = true := by
  unfold preSlaveError at h
  by_cases hs : sizes = []
  · rw [if_pos hs] at h; exact absurd h noSizesMsg_ne
  · rw [if_neg hs] at h
    by_cases hr : rates = []
    · rw [if_pos hr] at h; exact absurd h noRatesMsg_ne
    · rw [if_neg hr] at h
      by_cases hc : c = true
      · exact hc
      · rw [if_neg hc] at h; exact absurd h couldntChangeMsg_ne

theorem reopenErrorChain_empty_imp (c : Bool) (rates : List Nat) (sizes : List Int)
    (slaveErr : Option String)
    (h : reopenErrorChain c rates sizes slaveErr = "") : c = true := by
  unfold reopenErrorChain at h
  by_cases hp : preSlaveError c rates sizes = ""
  · exact preSlaveError_empty_imp c rates sizes hp
  · rw [if_neg hp] at h; exact absurd h hp

theorem reopenErrorChain_noconv (rates : List Nat) (sizes : List Int)
    (slaveErr : Option String) (h1 : rates ≠ []) (h2 : sizes ≠ []) :
    reopenErrorChain false rates sizes slaveErr = couldntChangeMsg := by
  have hp : preSlaveError false rates sizes = couldntChangeMsg := by
    unfold preSlaveError
    rw [if_neg h2, if_neg h1, if_neg (by simp : ¬(false = true))]
  unfold reopenErrorChain
  rw [hp, if_neg couldntChangeMsg_ne]

/-- Claim C2: `reopen` polls `updateDetailsFromDevice` up to 30 times; if it
returns an empty error then the observed sample rate and buffer size equal
the requested ones, and if the observed values never match within the 30
polls then the returned error is "Couldn't change sample rate/buffer size"
(given a real device id, non-empty initial availability lists and an OS
whose availability lists stay non-empty; the 100 ms sleep between polls has
no observable effect on the modelled state). -/
theorem reopen_convergence (os : Nat → OSSnapshot) (reqRate reqSize : Nat)
    (slaveErr : Option String) (s : CoreAudioState)
    (hid : s.deviceID ≠ 0)
    (hr : s.sampleRates ≠ []) (hb : s.bufferSizes ≠ [])
    (hro : ∀ t, (os t).rates ≠ []) (hbo : ∀ t, (os t).sizes ≠ []) :
    ((reopen os reqRate reqSize slaveErr s).error = "" →
      (reopen os reqRate reqSize slaveErr s).state.sampleRate = reqRate ∧
      (reopen os reqRate reqSize slaveErr s).state.bufferSize = reqSize) ∧
    ((∀ t, t < 30 → ¬((os t).rate = reqRate ∧ (os t).size = reqSize)) →
      (reopen os reqRate reqSize slaveErr s).error = couldntChangeMsg) := by
  constructor
  · intro he
    have hconv : (reopenLoopResult os reqRate reqSize s).2 = true :=
      reopenErrorChain_empty_imp _ _ _ _ he
    have := reopenLoop_converged os reqRate reqSize 30 0
      (stop false { s with callbacksAllowed := false }) hconv
    exact this
  · intro hnm
    have hid0 : (stop false { s with callbacksAllowed := false }).deviceID ≠ 0 := by
      rw [stop_deviceID]; exact hid
    have hnc : (reopenLoopResult os reqRate reqSize s).2 = false := by
      apply reopenLoop_not_matching os reqRate reqSize 30 0 _ hid0
      intro u hu1 hu2
      exact hnm u (by omega)
    have hlr : (stop false { s with callbacksAllowed := false }).sampleRates ≠ [] := by
      rw [stop_sampleRates]; exact hr
    have hlb : (stop false { s with callbacksAllowed := false }).bufferSizes ≠ [] := by
      rw [stop_bufferSizes]; exact hb
    have hlists := reopenLoop_lists os reqRate reqSize hro hbo 30 0
      (stop false { s with callbacksAllowed := false }) hlr hlb
    show reopenErrorChain (reopenLoopResult os reqRate reqSize s).2
      (reopenLoopResult os reqRate reqSize s).1.sampleRates
      (reopenLoopResult os reqRate reqSize s).1.bufferSizes slaveErr = couldntChangeMsg
    rw [hnc]
    exact reopenErrorChain_noconv _ _ _ hlists.1 hlists.2

/-- Claim C2, witness: with an OS that reports the requested 48000 Hz and
256 frames from the first poll on, both halves hold at the concrete core. -/
theorem reopen_convergence_witness :
    ((reopen convergingOS 48000 256 none baseState).error = "" →
      (reopen convergingOS 48000 256 none baseState).state.sampleRate = 48000 ∧
      (reopen convergingOS 48000 256 none baseState).state.bufferSize = 256) ∧
    ((∀ t, t < 30 → ¬((convergingOS t).rate = 48000 ∧ (convergingOS t).size = 256)) →
      (reopen convergingOS 48000 256 none baseState).error = couldntChangeMsg) :=
  reopen_convergence convergingOS 48000 256 none baseState (by decide)
    (by decide) (by decide) (fun t => by simp [convergingOS])
    (fun t => by simp [convergingOS])

/-- Claim C8: when the debounced `timerCallback` observes that the sample
rate or the buffer size changed since the snapshot, it runs `stop (false)`:
afterwards the client pointer is cleared and `started` is false, the timer
path delivers no client event at all (in particular no `audioDeviceStopped`
— only the facade's own `stop` emits that), and a subsequent `audioCallback`
on the resulting state issues no `audioDeviceIOCallback`. -/
theorem timerCallback_reconfigure_quiesces (snap1 snap2 : OSSnapshot)
    (s : CoreAudioState) (g : Nat → Nat → Int) (inB outB : Buffers)
    (hinv : s.started = true → s.deviceID ≠ 0)
    (hch : s.bufferSize ≠ (updateDetailsFromDevice snap1 s).bufferSize ∨
           s.sampleRate ≠ (updateDetailsFromDevice snap1 s).sampleRate) :
    (timerCallback snap1 snap2 s).1.callback = none ∧
    (timerCallback snap1 snap2 s).1.started = false ∧
    (timerCallback snap1 snap2 s).2 = [] ∧
    (audioCallback g inB outB (timerCallback snap1 snap2 s).1).map
      (fun r => r.2.2) = some [] := by
  have htc : timerCallback snap1 snap2 s =
      ({ updateDetailsFromDevice snap2
           (stop false { updateDetailsFromDevice snap1 s with callbacksAllowed := false })
         with callbacksAllowed := true }, []) := by
    unfold timerCallback
    rw [if_pos hch]
  have hcb : (timerCallback snap1 snap2 s).1.callback = none := by
    rw [htc]
    show (updateDetailsFromDevice snap2 _).callback = none
    rw [updateDetails_callback, stop_clears_callback]
  have hst : (timerCallback snap1 snap2 s).1.started = false := by
    rw [htc]
    show (updateDetailsFromDevice snap2 _).started = false
    rw [updateDetails_started]
    apply stop_false_not_started
    intro h
    rw [updateDetails_started] at h
    rw [updateDetails_deviceID]
    exact hinv h
  refine ⟨hcb, hst, by rw [htc], ?_⟩
  simp only [audioCallback, hcb, Option.map_some']

/-- Claim C8, witness: a started core with a bound client whose buffer size
changes from 4 to 512 at the refresh. -/
theorem timerCallback_reconfigure_quiesces_witness :
    (timerCallback (stuckOS 0) (stuckOS 0) startedState).1.callback = none ∧
    (timerCallback (stuckOS 0) (stuckOS 0) startedState).1.started = false ∧
    (timerCallback (stuckOS 0) (stuckOS 0) startedState).2 = [] ∧
    (audioCallback (fun _ _ => 0) (fun _ _ => 0) (fun _ _ => 0)
      (timerCallback (stuckOS 0) (stuckOS 0) startedState).1).map
      (fun r => r.2.2) = some [] :=
  timerCallback_reconfigure_quiesces (stuckOS 0) (stuckOS 0) startedState
    (fun _ _ => 0) (fun _ _ => 0) (fun _ _ => 0) (fun _ => by decide)
    (Or.inl (by decide))

/-- Claim C5, evaluated at the failing input: with distinct ids where the
master (output id 1) opens and the slave (input id 2) is rejected by the
OS, the constructor keeps the master but attaches the failed slave anyway —
line 876 reads `device->error` (the master's, empty) instead of
`secondDevice->error` — and reports no error, instead of discarding the
slave and returning an output-only device. -/
theorem slave_open_failure_attached :
    (mkCoreAudioIODevice exampleOpenError 2 0 1 0).hasInternal = true ∧
    (mkCoreAudioIODevice exampleOpenError 2 0 1 0).slaveAttached = true ∧
    (mkCoreAudioIODevice exampleOpenError 2 0 1 0).slaveError = "device rejected" ∧
    (mkCoreAudioIODevice exampleOpenError 2 0 1 0).lastError = "" :=
  ⟨rfl, rfl, rfl, rfl⟩

/-- Claim C6, evaluated at the failing input: with scanned tables ["mic"] /
["spk"] and names that resolve to no entry, `createDevice` does not return
null — the `index >= 0` guard of line 1555 names no local, resolves to the
C library function `index` and always passes — and the returned device
carries no internal core (both looked-up ids default to 0). -/
theorem createDevice_unresolved_names_not_null :
    (createDevice exampleOpenError (["mic"]) (["spk"]) ([5]) ([6])
        ("absent out") ("absent in")).isSome = true ∧
    (createDevice exampleOpenError (["mic"]) (["spk"]) ([5]) ([6])
        ("absent out") ("absent in")).map IODeviceModel.hasInternal = some false :=
  ⟨rfl, rfl⟩

/-- Claim C7, evaluated at the failing input: with the OS DataSources list
[10, 20] and current source 20 (at position 1), `getCurrentSourceIndex`
never returns 1 — line 380 compares `types [num]`, one element past the end
(modelled by `oobVal`), on every iteration, so the result is 0 or -1
whatever that memory holds.  The -1 answer for device id 0 holds as
claimed. -/
theorem getCurrentSourceIndex_oob_compare :
    (∀ oobVal : Nat,
      getCurrentSourceIndex 1 true 20 (some [10, 20]) oobVal = 0 ∨
      getCurrentSourceIndex 1 true 20 (some [10, 20]) oobVal = -1) ∧
    getCurrentSourceIndex 0 true 20 (some [10, 20]) 20 = -1 := by
  constructor
  · intro oobVal
    by_cases h : oobVal = 20
    · left; simp [getCurrentSourceIndex, sourceScan, h]
    · right; simp [getCurrentSourceIndex, sourceScan, h]
  · rfl

/-- Claim C7, witness at a concrete out-of-bounds value. -/
theorem getCurrentSourceIndex_oob_compare_witness :
    getCurrentSourceIndex 1 true 20 (some [10, 20]) 77 = 0 ∨
    getCurrentSourceIndex 1 true 20 (some [10, 20]) 77 = -1 :=
  getCurrentSourceIndex_oob_compare.1 77

/-- Claim C9, counterexample: for 2 channels of 4 samples the allocation is
`32 + 2 * 4 * sizeof (float)` BYTES — 64, not the `(32 + 2 * 4)` float
slots (160 bytes) the claim states — and the first channel view starts at
float offset 0, not after a 32-float padding head. -/
theorem tempBuffer_size_counterexample :
    tempAllocBytes 2 4 ≠ (32 + 2 * 4) * sizeofFloat ∧ tempInputOffset 0 4 = 0 := by
  decide

theorem slot_succ_le (c c' m : Nat) (h : c < c') : c * m + m ≤ c' * m := by
  calc c * m + m = (c + 1) * m := by ring
    _ ≤ c' * m := Nat.mul_le_mul_right m h

/-- Claim C9 (amended): the temp audio buffer is a single contiguous
allocation of `32 + (numIn + numOut) * bufferSize * sizeof (float)` bytes,
i.e. `8 + (numIn + numOut) * bufferSize` float slots with the 32 bytes as
tail slack; the per-channel views start at the allocation base (input `i`
at float offset `i * bufferSize`, output `j` at
`(numIn + j) * bufferSize`), are `bufferSize` floats each, lie within the
allocation, and are pairwise non-overlapping. -/
theorem tempBuffer_layout (numIn numOut numSamples : Nat) :
    tempAllocBytes (numIn + numOut) numSamples =
      (8 + (numIn + numOut) * numSamples) * sizeofFloat ∧
    (∀ i, i < numIn →
      tempInputOffset i numSamples + numSamples ≤
        8 + (numIn + numOut) * numSamples) ∧
    (∀ j, j < numOut →
      tempOutputOffset numIn j numSamples + numSamples ≤
        8 + (numIn + numOut) * numSamples) ∧
    (∀ i i', i < numIn → i' < numIn → i ≠ i' →
      viewsDisjoint (tempInputOffset i numSamples)
        (tempInputOffset i' numSamples) numSamples) ∧
    (∀ j j', j < numOut → j' < numOut → j ≠ j' →
      viewsDisjoint (tempOutputOffset numIn j numSamples)
        (tempOutputOffset numIn j' numSamples) numSamples) ∧
    (∀ i j, i < numIn → j < numOut →
      viewsDisjoint (tempInputOffset i numSamples)
        (tempOutputOffset numIn j numSamples) numSamples) := by
  refine ⟨?_, ?_, ?_, ?_, ?_, ?_⟩
  · unfold tempAllocBytes sizeofFloat; ring
  · intro i hi
    unfold tempInputOffset
    exact le_trans (slot_succ_le i (numIn + numOut) numSamples (by omega))
      (Nat.le_add_left _ 8)
  · intro j hj
    unfold tempOutputOffset
    exact le_trans (slot_succ_le (numIn + j) (numIn + numOut) numSamples (by omega))
      (Nat.le_add_left _ 8)
  · intro i i' hi hi' hne
    unfold viewsDisjoint tempInputOffset
    rcases Nat.lt_or_ge i i' with h | h
    · exact Or.inl (slot_succ_le i i' numSamples h)
    · exact Or.inr (slot_succ_le i' i numSamples (by omega))
  · intro j j' hj hj' hne
    unfold viewsDisjoint tempOutputOffset
    rcases Nat.lt_or_ge j j' with h | h
    · exact Or.inl (slot_succ_le (numIn + j) (numIn + j') numSamples (by omega))
    · exact Or.inr (slot_succ_le (numIn + j') (numIn + j) numSamples (by omega))
  · intro i j hi hj
    unfold viewsDisjoint tempInputOffset tempOutputOffset
    exact Or.inl (slot_succ_le i (numIn + j) numSamples (by omega))

/-- Claim C9, witness for the amended layout with 2 inputs, 1 output and 4
samples. -/
theorem tempBuffer_layout_witness :
    tempAllocBytes (2 + 1) 4 = (8 + (2 + 1) * 4) * sizeofFloat ∧
    viewsDisjoint (tempInputOffset 0 4) (tempOutputOffset 2 0 4) 4 :=
  ⟨(tempBuffer_layout 2 1 4).1,
   (tempBuffer_layout 2 1 4).2.2.2.2.2 0 0 (by decide) (by decide)⟩

set_option maxRecDepth 8000 in
/-- Claim C10, counterexample: `updateDetailsFromDevice` can build the
unsorted size list [600, 608, 640, 512] (OS range 600..640, current buffer
size 512 appended last); on it `getDefaultBufferSize` returns 600, the
first entry at least 512 in list order, not the smallest such entry, 512. -/
theorem getDefaultBufferSize_counterexample :
    getDefaultBufferSize (buildBufferSizes [(600, 640)] 512) = 600 ∧
    smallestAtLeast512 (buildBufferSizes [(600, 640)] 512) = 512 ∧
    getDefaultBufferSize (buildBufferSizes [(600, 640)] 512) ≠
      smallestAtLeast512 (buildBufferSizes [(600, 640)] 512) := by
  decide

theorem foldl_min_self (x : Int) (l : List Int) (h : ∀ y ∈ l, x ≤ y) :
    l.foldl min x = x := by
  induction l generalizing x with
  | nil => rfl
  | cons a l ih =>
      simp only [List.foldl_cons]
      rw [min_eq_left (h a (List.mem_cons_self a l))]
      exact ih x fun y hy => h y (List.mem_cons_of_mem a hy)

theorem smallestAtLeast512_cons_pos (x : Int) (xs : List Int) (hx : 512 ≤ x)
    (hall : ∀ y ∈ xs, x ≤ y) : smallestAtLeast512 (x :: xs) = x := by
  unfold smallestAtLeast512
  rw [List.filter_cons_of_pos (by simpa using hx)]
  exact foldl_min_self x _ fun y hy => hall y (List.mem_of_mem_filter hy)

theorem smallestAtLeast512_cons_neg (x : Int) (xs : List Int) (hx : ¬ 512 ≤ x) :
    smallestAtLeast512 (x :: xs) = smallestAtLeast512 xs := by
  unfold smallestAtLeast512
  rw [List.filter_cons_of_neg (by simpa using hx)]

/-- Claim C10 (amended): `getDefaultBufferSize` returns the first element of
the available-size list, in list order, that is at least 512, and 512 when
there is none; when the list is sorted ascending — which the lists built by
`updateDetailsFromDevice` need not be — this coincides with the smallest
element that is at least 512. -/
theorem getDefaultBufferSize_first_match (sizes : List Int) :
    getDefaultBufferSize sizes =
      ((sizes.find? fun x => decide (512 ≤ x)).getD 512) ∧
    (sizes.Pairwise (· ≤ ·) →
      getDefaultBufferSize sizes = smallestAtLeast512 sizes) := by
  induction sizes with
  | nil => exact ⟨rfl, fun _ => rfl⟩
  | cons x xs ih =>
      by_cases hx : 512 ≤ x
      · constructor
        · show (if 512 ≤ x then x else getDefaultBufferSize xs) = _
          rw [if_pos hx, List.find?_cons_of_pos _ (by simpa using hx)]
          rfl
        · intro hp
          rw [List.pairwise_cons] at hp
          show (if 512 ≤ x then x else getDefaultBufferSize xs) = _
          rw [if_pos hx, smallestAtLeast512_cons_pos x xs hx hp.1]
      · constructor
        · show (if 512 ≤ x then x else getDefaultBufferSize xs) = _
          rw [if_neg hx, List.find?_cons_of_neg _ (by simpa using hx)]
          exact ih.1
        · intro hp
          rw [List.pairwise_cons] at hp
          show (if 512 ≤ x then x else getDefaultBufferSize xs) = _
          rw [if_neg hx, smallestAtLeast512_cons_neg x xs hx]
          exact ih.2 hp.2

/-- Claim C10, witness for the amended statement on a concrete sorted
list. -/
theorem getDefaultBufferSize_first_match_witness :
    getDefaultBufferSize [32, 600] =
      ((([32, 600] : List Int).find? fun x => decide (512 ≤ x)).getD 512) ∧
    getDefaultBufferSize [32, 600] = smallestAtLeast512 [32, 600] :=
  ⟨(getDefaultBufferSize_first_match [32, 600]).1,
   (getDefaultBufferSize_first_match [32, 600]).2 (by decide)⟩

end CoreAudio
